import Mathlib

/-!
Verification of the session-sharing relay of this repository.

The relay consists of a Session Registry, Transport Listener, Broadcast
Engine, Input Router and Lifecycle Manager.  The server implementation
itself (sessionSharingServer.ts) is not part of the source tree; only its
callers are: the IPC wiring in src/app/lib/app.ts
(Application.initSessionSharing) and the terminal decorator
SessionSharingDecorator in src/unnamed/part_010.  Definitions for the
missing server are therefore modelled from the specification (each marked
in its doc comment); definitions for the wiring and the decorator are
translated from the source files.

Bytes are modelled as lists of naturals, time as a natural number of
seconds, and viewer transport handles as naturals.  Observable side
effects (writes to viewer transports, transport closes, notifications to
the host, input delivered to the host sink) are collected in an event
list returned next to the new server state.
-/

/-- Session mode: the spec's two-variant string union for `mode`. -/
inductive Mode where
  | readOnly
  | interactive
  deriving DecidableEq, Repr

/-- Modelled from the spec: a SharedSession record of the Session Registry
(id, token, optional password, mode, optional absolute expiry, set of
attached viewer transport handles). -/
structure SharedSession where
  id : String
  token : String
  password : Option String
  mode : Mode
  expiresAt : Option Nat
  viewers : List Nat
  deriving DecidableEq, Repr

/-- Modelled from the spec: one attached remote client, holding a weak
back-reference to its session and its transport handle. -/
structure ViewerConnection where
  sessionId : String
  viewerId : Nat
  deriving DecidableEq, Repr

/-- State of the relay server: listener state (running flag, bound port and
host) plus the Session Registry's table. -/
structure ServerState where
  running : Bool
  port : Nat
  host : String
  sessions : List SharedSession
  deriving DecidableEq, Repr

/-- Observable side effects of relay operations: bytes written to a viewer
transport, a transport being closed, viewer-joined / viewer-count
notifications to the host, and input handed to the host sink. -/
inductive Event where
  | deliver (viewerId : Nat) (bytes : List Nat)
  | closeTransport (viewerId : Nat)
  | viewerJoined (sessionId : String) (count : Nat)
  | viewerLeft (sessionId : String) (count : Nat)
  | inputToHost (sessionId : String) (bytes : List Nat)
  deriving DecidableEq, Repr

/-- Modelled from the spec: Registry lookup, returning the SharedSession
for an id or none (sessionSharingServer.ts is absent from src). -/
def lookupSession (sessions : List SharedSession) (sessionId : String) : Option SharedSession :=
  sessions.find? (fun s => s.id == sessionId)

/-- Modelled from the spec: `register(sessionId, token, mode, password?,
expiresInSeconds?)` inserts a new SharedSession, replacing any existing
entry for the same id, computing `expiresAt` from `expiresInSeconds`. -/
def registerSession (st : ServerState) (sessionId token : String) (mode : Mode)
    (password : Option String) (expiresInSeconds : Option Nat) (now : Nat) : ServerState :=
  let s : SharedSession :=
    { id := sessionId, token := token, password := password, mode := mode,
      expiresAt := expiresInSeconds.map (fun n => now + n), viewers := [] }
  { st with sessions := s :: st.sessions.filter (fun t => t.id != sessionId) }

/-- Modelled from the spec: `unregister(sessionId)` removes the entry and
forcibly closes every attached viewer transport, emitting the final
viewer-count notification; a no-op if the id is absent. -/
def unregisterSession (st : ServerState) (sessionId : String) : ServerState × List Event :=
  match lookupSession st.sessions sessionId with
  | none => (st, [])
  | some s =>
    ({ st with sessions := st.sessions.filter (fun t => t.id != sessionId) },
     s.viewers.map Event.closeTransport ++ [Event.viewerLeft sessionId 0])

/-- Modelled from the spec: `viewerCount(sessionId)` returns the size of
the viewers set, or 0 if the session is absent (name as delegated through
Application.initSessionSharing in src/app/lib/app.ts). -/
def getViewerCount (st : ServerState) (sessionId : String) : Nat :=
  match lookupSession st.sessions sessionId with
  | none => 0
  | some s => s.viewers.length

/-- Update every registry entry with the given id in place, leaving the
others untouched. -/
def updateSession (sessions : List SharedSession) (sessionId : String)
    (f : SharedSession → SharedSession) : List SharedSession :=
  sessions.map (fun s => if s.id == sessionId then f s else s)

/-- Modelled from the spec: the password check of the attach handshake
(reject only when a password is required but missing or incorrect). -/
def passwordOk (s : SharedSession) (password : Option String) : Bool :=
  match s.password with
  | none => true
  | some p => password == some p

/-- Modelled from the spec: the expiry check of the attach handshake
(reject when `expiresAt` is in the past). -/
def notExpired (s : SharedSession) (now : Nat) : Bool :=
  match s.expiresAt with
  | none => true
  | some t => decide (now ≤ t)

/-- Modelled from the spec: the combined credential check of the attach
handshake: token match, password check, expiry check. -/
def handshakeOk (s : SharedSession) (token : String) (password : Option String)
    (now : Nat) : Bool :=
  token == s.token && passwordOk s password && notExpired s now

/-- Modelled from the spec: the attach handshake of the Transport
Listener.  Reject (close connection, no side effects) when the session is
not found, the token mismatches, a required password is missing or wrong,
or the session is expired; on success add the viewer to the session's set
and emit a viewer-joined notification with the new count.  The boolean
reports acceptance. -/
def attachViewer (st : ServerState) (sessionId token : String) (password : Option String)
    (now viewerId : Nat) : ServerState × List Event × Bool :=
  match lookupSession st.sessions sessionId with
  | none => (st, [Event.closeTransport viewerId], false)
  | some s =>
    if handshakeOk s token password now then
      let sessions' := updateSession st.sessions sessionId
        (fun t => { t with viewers := t.viewers ++ [viewerId] })
      ({ st with sessions := sessions' },
       [Event.viewerJoined sessionId (s.viewers.length + 1)], true)
    else
      (st, [Event.closeTransport viewerId], false)

/-- Modelled from the spec: `broadcastOutput(sessionId, bytes)` of the
Broadcast Engine.  `failed` is the set of viewer transports whose write
fails at call time.  Every still-healthy viewer receives the bytes; every
failing viewer is dropped from the set and its transport closed, with a
viewer-count notification when anyone was dropped.  A silent no-op on an
unknown session. -/
def broadcastOutput (st : ServerState) (sessionId : String) (bytes : List Nat)
    (failed : List Nat) : ServerState × List Event :=
  match lookupSession st.sessions sessionId with
  | none => (st, [])
  | some s =>
    let evs := s.viewers.map (fun v =>
      if v ∈ failed then Event.closeTransport v else Event.deliver v bytes)
    let kept := s.viewers.filter (fun v => v ∉ failed)
    let notif := if kept.length == s.viewers.length then []
      else [Event.viewerLeft sessionId kept.length]
    let sessions' := updateSession st.sessions sessionId
      (fun t => { t with viewers := t.viewers.filter (fun v => v ∉ failed) })
    ({ st with sessions := sessions' }, evs ++ notif)

/-- Modelled from the spec: a session whose `expiresAt` lies strictly in
the past is expired. -/
def isExpired (s : SharedSession) (now : Nat) : Bool :=
  match s.expiresAt with
  | none => false
  | some t => decide (t < now)

/-- Modelled from the spec: the Lifecycle Manager's expiration sweep:
every session past its expiry is unregistered exactly as by an explicit
`unregister`, including forced viewer disconnection. -/
def sweepExpired (st : ServerState) (now : Nat) : ServerState × List Event :=
  ({ st with sessions := st.sessions.filter (fun s => !(isExpired s now)) },
   (st.sessions.filter (fun s => isExpired s now)).flatMap
     (fun s => s.viewers.map Event.closeTransport ++ [Event.viewerLeft s.id 0]))

/-- Modelled from the spec: the Input Router.  Bytes from a viewer of a
read-only session are discarded with no side effect; bytes from a viewer
of an interactive session are emitted to the host tagged with the session
id.  Unknown sessions produce nothing. -/
def routeViewerInput (st : ServerState) (conn : ViewerConnection)
    (bytes : List Nat) : List Event :=
  match lookupSession st.sessions conn.sessionId with
  | none => []
  | some s =>
    match s.mode with
    | Mode.readOnly => []
    | Mode.interactive => [Event.inputToHost s.id bytes]

/-- Translated from src/app/lib/app.ts (Application.initSessionSharing):
the process-level listener for server input events rebroadcasts each
(sessionId, data) pair on the terminal-input channel; this list is what
the host input sink receives for a given event stream. -/
def terminalInputSink (evs : List Event) : List (String × List Nat) :=
  evs.filterMap (fun e =>
    match e with
    | Event.inputToHost sid bytes => some (sid, bytes)
    | _ => none)

/-- Environment of one bind attempt: the ephemeral port the OS would
assign for port 0, and whether binding fails (address in use or invalid
host). -/
structure BindEnv where
  osPick : Nat
  bindFails : Bool
  deriving DecidableEq, Repr

/-- Modelled from the spec: `start(port, host)` of the Transport Listener.
Port 0 means an OS-picked ephemeral port; the bound port is returned.  A
bind failure is reported as an error and the server remains stopped.
Calling start while already running is a no-op returning the existing
port. -/
def listenerStart (st : ServerState) (port : Nat) (host : String)
    (env : BindEnv) : ServerState × Except String Nat :=
  if st.running then (st, Except.ok st.port)
  else if env.bindFails then (st, Except.error "bind failed")
  else
    let p := if port == 0 then env.osPick else port
    ({ st with running := true, port := p, host := host }, Except.ok p)

/-- Modelled from the spec: `stop()` closes the listener and all attached
viewer transports, tearing down all sessions; a no-op while stopped. -/
def listenerStop (st : ServerState) : ServerState × List Event :=
  if st.running then
    ({ st with running := false, port := 0, sessions := [] },
     st.sessions.flatMap (fun s => s.viewers.map Event.closeTransport))
  else (st, [])

/-- JavaScript falsy-or on an optional number (0 falls through), as used
by the `port || config.port || 0` chain in src/app/lib/app.ts. -/
def jsOrNat (x : Option Nat) (y : Nat) : Nat :=
  match x with
  | none => y
  | some p => if p == 0 then y else p

/-- JavaScript falsy-or on an optional string (the empty string falls
through), as used by the `host || config.bindHost || default` chain in
src/app/lib/app.ts. -/
def jsOrStr (x : Option String) (y : String) : String :=
  match x with
  | none => y
  | some s => if s == "" then y else s

/-- Reply structure of the start-server IPC handler in
src/app/lib/app.ts. -/
structure StartReply where
  success : Bool
  port : Option Nat
  host : Option String
  error : Option String
  deriving DecidableEq, Repr

/-- Translated from src/app/lib/app.ts (the session-sharing start-server
IPC handler): defaults the host and port from configuration, calls the
server's start, and reports either a success record with the actual bound
port or a structured failure. -/
def startServerHandler (st : ServerState) (port : Option Nat) (host : Option String)
    (cfgHost : Option String) (cfgPort : Option Nat) (env : BindEnv) :
    ServerState × StartReply :=
  let bindHost := jsOrStr host (jsOrStr cfgHost "0.0.0.0")
  let bindPort := jsOrNat port (jsOrNat cfgPort 0)
  match listenerStart st bindPort bindHost env with
  | (st', Except.ok actualPort) =>
    (st', { success := true, port := some actualPort, host := some bindHost, error := none })
  | (st', Except.error e) =>
    (st', { success := false, port := none, host := none, error := some e })

/-- Bytes delivered to one viewer transport, in emission order, extracted
from an event stream. -/
def deliveredTo (evs : List Event) (viewerId : Nat) : List (List Nat) :=
  evs.filterMap (fun e =>
    match e with
    | Event.deliver v bytes => if v == viewerId then some bytes else none
    | _ => none)

/-- Run a sequence of broadcast calls; each call carries the bytes to
broadcast and the set of viewer transports failing at that call. -/
def runBroadcasts : ServerState → String → List (List Nat × List Nat) →
    ServerState × List Event
  | st, _, [] => (st, [])
  | st, sid, c :: rest =>
    let step := broadcastOutput st sid c.1 c.2
    let restRun := runBroadcasts step.1 sid rest
    (restRun.1, step.2 ++ restRun.2)

/-- Events a terminal's underlying session can emit towards the
SessionSharingDecorator: output data, the closed event, the destroyed
event. -/
inductive TermEvent where
  | output (bytes : List Nat)
  | closed
  | destroyed
  deriving DecidableEq, Repr

/-- Calls the decorator makes into the SessionSharingService. -/
inductive SvcCall where
  | broadcastCall (sessionId : String) (bytes : List Nat)
  | stopSharingCall (sessionId : String)
  deriving DecidableEq, Repr

/-- Translated from SessionSharingDecorator.attachToSharedSession
(src/unnamed/part_010): once a terminal is attached as a shared session,
its output is subscribed to broadcastOutput and the session's closed and
destroyed events are subscribed to stopSharing. -/
def decoratorHandle (sessionId : String) : TermEvent → List SvcCall
  | TermEvent.output bytes => [SvcCall.broadcastCall sessionId bytes]
  | TermEvent.closed => [SvcCall.stopSharingCall sessionId]
  | TermEvent.destroyed => [SvcCall.stopSharingCall sessionId]

/-- Modelled from the spec: the effect of the decorator's service calls on
the relay: broadcastOutput relays bytes to the session's viewers, and
stopSharing unregisters the session (SessionSharingService is absent from
src). -/
def applySvcCall (st : ServerState) : SvcCall → ServerState × List Event
  | SvcCall.broadcastCall sid bytes => broadcastOutput st sid bytes []
  | SvcCall.stopSharingCall sid => unregisterSession st sid

/-- Apply a list of service calls in order, accumulating events. -/
def applySvcCalls : ServerState → List SvcCall → ServerState × List Event
  | st, [] => (st, [])
  | st, c :: rest =>
    let step := applySvcCall st c
    let restRun := applySvcCalls step.1 rest
    (restRun.1, step.2 ++ restRun.2)

/-- Process a trace of terminal events through the attached decorator,
applying the service calls it makes to the relay state. -/
def decoratorRun : ServerState → String → List TermEvent → ServerState × List Event
  | st, _, [] => (st, [])
  | st, sid, e :: rest =>
    let step := applySvcCalls st (decoratorHandle sid e)
    let restRun := decoratorRun step.1 sid rest
    (restRun.1, step.2 ++ restRun.2)

/-! Helper lemmas about the registry operations. -/

theorem lookupSession_eq_id (sessions : List SharedSession) (sid : String)
    (s : SharedSession) (h : lookupSession sessions sid = some s) : s.id = sid := by
  have hp := List.find?_some h
  exact beq_iff_eq.mp (by simpa using hp)

theorem lookupSession_mem (sessions : List SharedSession) (sid : String)
    (s : SharedSession) (h : lookupSession sessions sid = some s) : s ∈ sessions :=
  List.mem_of_find?_eq_some h

theorem lookupSession_eq_none_iff (sessions : List SharedSession) (sid : String) :
    lookupSession sessions sid = none ↔ ∀ s ∈ sessions, s.id ≠ sid := by
  unfold lookupSession
  rw [List.find?_eq_none]
  constructor
  · intro h s hs
    have := h s hs
    simpa [beq_iff_eq] using this
  · intro h s hs
    simpa [beq_iff_eq] using h s hs

theorem lookupSession_updateSession (sessions : List SharedSession) (sid : String)
    (f : SharedSession → SharedSession) (hf : ∀ s, (f s).id = s.id) :
    lookupSession (updateSession sessions sid f) sid =
      (lookupSession sessions sid).map f := by
  induction sessions with
  | nil => rfl
  | cons s rest ih =>
    by_cases h : (s.id == sid) = true
    · have hfs : ((f s).id == sid) = true := by rw [hf s]; exact h
      simp only [updateSession, List.map_cons, if_pos h, lookupSession] at ih ⊢
      rw [List.find?_cons_of_pos (p := fun (u : SharedSession) => u.id == sid) _ hfs,
        List.find?_cons_of_pos (p := fun (u : SharedSession) => u.id == sid) _ h]
      rfl
    · have h' : (s.id == sid) = false := by simpa using h
      simp only [updateSession, List.map_cons, if_neg h, lookupSession] at ih ⊢
      rw [List.find?_cons_of_neg (p := fun (u : SharedSession) => u.id == sid) _ (by simpa using h'),
        List.find?_cons_of_neg (p := fun (u : SharedSession) => u.id == sid) _ (by simpa using h')]
      exact ih

theorem lookupSession_of_filter_singleton (sessions : List SharedSession) (sid : String)
    (s : SharedSession) (h : sessions.filter (fun u => u.id == sid) = [s]) :
    lookupSession sessions sid = some s := by
  induction sessions with
  | nil => simp at h
  | cons a t ih =>
    by_cases ha : (a.id == sid) = true
    · rw [List.filter_cons_of_pos (p := fun (u : SharedSession) => u.id == sid) ha] at h
      have := List.cons.inj h
      unfold lookupSession
      rw [List.find?_cons_of_pos (p := fun (u : SharedSession) => u.id == sid) _ ha, this.1]
    · rw [List.filter_cons_of_neg (p := fun (u : SharedSession) => u.id == sid)
        (by simpa using ha)] at h
      unfold lookupSession
      rw [List.find?_cons_of_neg (p := fun (u : SharedSession) => u.id == sid) _ (by simpa using ha)]
      exact ih h

/-! Equation lemmas for the relay operations. -/

theorem attachViewer_eq_notfound (st : ServerState) (sid tok : String) (pw : Option String)
    (now vid : Nat) (hl : lookupSession st.sessions sid = none) :
    attachViewer st sid tok pw now vid = (st, [Event.closeTransport vid], false) := by
  simp only [attachViewer, hl]

theorem attachViewer_eq_reject (st : ServerState) (sid tok : String) (pw : Option String)
    (now vid : Nat) (s : SharedSession) (hl : lookupSession st.sessions sid = some s)
    (hok : handshakeOk s tok pw now = false) :
    attachViewer st sid tok pw now vid = (st, [Event.closeTransport vid], false) := by
  simp only [attachViewer, hl, hok]
  rfl

theorem attachViewer_eq_accept (st : ServerState) (sid tok : String) (pw : Option String)
    (now vid : Nat) (s : SharedSession) (hl : lookupSession st.sessions sid = some s)
    (hok : handshakeOk s tok pw now = true) :
    attachViewer st sid tok pw now vid =
      ({ st with sessions := (updateSession st.sessions sid
           (fun t => { t with viewers := t.viewers ++ [vid] })) },
       [Event.viewerJoined sid (s.viewers.length + 1)], true) := by
  simp only [attachViewer, hl, hok]
  rfl

theorem unregisterSession_eq_none (st : ServerState) (sid : String)
    (hl : lookupSession st.sessions sid = none) :
    unregisterSession st sid = (st, []) := by
  simp only [unregisterSession, hl]

theorem unregisterSession_eq_some (st : ServerState) (sid : String) (s : SharedSession)
    (hl : lookupSession st.sessions sid = some s) :
    unregisterSession st sid =
      ({ st with sessions := st.sessions.filter (fun t => t.id != sid) },
       s.viewers.map Event.closeTransport ++ [Event.viewerLeft sid 0]) := by
  simp only [unregisterSession, hl]

theorem broadcastOutput_eq_none (st : ServerState) (sid : String) (bytes failed : List Nat)
    (hl : lookupSession st.sessions sid = none) :
    broadcastOutput st sid bytes failed = (st, []) := by
  simp only [broadcastOutput, hl]

theorem broadcastOutput_eq_some (st : ServerState) (sid : String) (bytes failed : List Nat)
    (s : SharedSession) (hl : lookupSession st.sessions sid = some s) :
    broadcastOutput st sid bytes failed =
      ({ st with sessions := (updateSession st.sessions sid
           (fun t => { t with viewers := t.viewers.filter (fun v => v ∉ failed) })) },
       s.viewers.map (fun v =>
           if v ∈ failed then Event.closeTransport v else Event.deliver v bytes) ++
         (if (s.viewers.filter (fun v => v ∉ failed)).length == s.viewers.length then []
          else [Event.viewerLeft sid (s.viewers.filter (fun v => v ∉ failed)).length])) := by
  simp only [broadcastOutput, hl]

theorem getViewerCount_eq_none (st : ServerState) (sid : String)
    (hl : lookupSession st.sessions sid = none) : getViewerCount st sid = 0 := by
  simp only [getViewerCount, hl]

theorem getViewerCount_eq_some (st : ServerState) (sid : String) (s : SharedSession)
    (hl : lookupSession st.sessions sid = some s) :
    getViewerCount st sid = s.viewers.length := by
  simp only [getViewerCount, hl]

/-- Characterization of the handshake credential check in terms of the
claim's conditions: token equality, password requirement, expiry. -/
theorem handshakeOk_iff (s : SharedSession) (tok : String) (pw : Option String) (now : Nat) :
    handshakeOk s tok pw now = true ↔
      tok = s.token ∧ (∀ p, s.password = some p → pw = some p) ∧
        (∀ t, s.expiresAt = some t → now ≤ t) := by
  unfold handshakeOk passwordOk notExpired
  cases hp : s.password with
  | none =>
    cases he : s.expiresAt with
    | none => simp
    | some t => simp
  | some p =>
    cases he : s.expiresAt with
    | none => simp
    | some t => simp [and_assoc]

/-! Lemmas about delivery events and per-viewer ordering. -/

theorem deliveredTo_append (l₁ l₂ : List Event) (vid : Nat) :
    deliveredTo (l₁ ++ l₂) vid = deliveredTo l₁ vid ++ deliveredTo l₂ vid :=
  List.filterMap_append _ _ _

theorem deliveredTo_deliver_cons (v : Nat) (bytes : List Nat) (evs : List Event) (vid : Nat) :
    deliveredTo (Event.deliver v bytes :: evs) vid =
      if v = vid then bytes :: deliveredTo evs vid else deliveredTo evs vid := by
  by_cases h : v = vid <;> simp [deliveredTo, List.filterMap_cons, h]

theorem deliveredTo_close_cons (v : Nat) (evs : List Event) (vid : Nat) :
    deliveredTo (Event.closeTransport v :: evs) vid = deliveredTo evs vid := by
  simp [deliveredTo, List.filterMap_cons]

theorem deliveredTo_viewerLeft_cons (sid : String) (n : Nat) (evs : List Event) (vid : Nat) :
    deliveredTo (Event.viewerLeft sid n :: evs) vid = deliveredTo evs vid := by
  simp [deliveredTo, List.filterMap_cons]

theorem deliveredTo_notif (sid : String) (b : Bool) (n vid : Nat) :
    deliveredTo (if b then [] else [Event.viewerLeft sid n]) vid = [] := by
  cases b
  · simp [deliveredTo, List.filterMap_cons]
  · rfl

theorem deliveredTo_broadcast_events (l : List Nat) (failed bytes : List Nat) (vid : Nat)
    (hv : vid ∉ failed) :
    deliveredTo (l.map (fun v =>
        if v ∈ failed then Event.closeTransport v else Event.deliver v bytes)) vid =
      List.replicate (l.count vid) bytes := by
  induction l with
  | nil => rfl
  | cons a t ih =>
    by_cases hav : a = vid
    · subst hav
      simp [List.map_cons, if_neg hv, deliveredTo_deliver_cons,
        List.count_cons_self, List.replicate_succ, ih]
    · by_cases haf : a ∈ failed
      · simp only [List.map_cons, if_pos haf, deliveredTo_close_cons,
          List.count_cons_of_ne (by exact fun e => hav e.symm), ih]
      · simp only [List.map_cons, if_neg haf, deliveredTo_deliver_cons, if_neg hav,
          List.count_cons_of_ne (by exact fun e => hav e.symm), ih]

theorem count_filter_not_failed (l : List Nat) (failed : List Nat) (vid : Nat)
    (hv : vid ∉ failed) :
    (l.filter (fun v => v ∉ failed)).count vid = l.count vid := by
  induction l with
  | nil => rfl
  | cons a t ih =>
    by_cases haf : a ∈ failed
    · have hav : a ≠ vid := fun e => hv (e ▸ haf)
      rw [List.filter_cons_of_neg (by simpa using haf),
        List.count_cons_of_ne (fun e => hav e.symm), ih]
    · by_cases hav : a = vid
      · subst hav
        rw [List.filter_cons_of_pos (by simpa using haf), List.count_cons_self,
          List.count_cons_self, ih]
      · rw [List.filter_cons_of_pos (by simpa using haf),
          List.count_cons_of_ne (fun e => hav e.symm),
          List.count_cons_of_ne (fun e => hav e.symm), ih]

theorem mem_deliver_broadcast (st : ServerState) (sid : String) (bytes failed : List Nat)
    (s : SharedSession) (v : Nat) (hl : lookupSession st.sessions sid = some s)
    (hv : v ∈ s.viewers) (hnf : v ∉ failed) :
    Event.deliver v bytes ∈ (broadcastOutput st sid bytes failed).2 := by
  rw [broadcastOutput_eq_some st sid bytes failed s hl]
  refine List.mem_append_left _ ?_
  have : Event.deliver v bytes =
      (fun v => if v ∈ failed then Event.closeTransport v else Event.deliver v bytes) v := by
    simp [hnf]
  rw [this]
  exact List.mem_map_of_mem _ hv

theorem lookupSession_after_unregister (st : ServerState) (sid : String) :
    lookupSession ((unregisterSession st sid).1).sessions sid = none := by
  cases hl : lookupSession st.sessions sid with
  | none => rw [unregisterSession_eq_none st sid hl]; exact hl
  | some s =>
    simp only [unregisterSession_eq_some st sid s hl]
    rw [lookupSession_eq_none_iff]
    intro t ht
    have hm := List.mem_filter.mp ht
    simpa [bne_iff_ne] using hm.2

theorem deliveredTo_runBroadcasts (calls : List (List Nat × List Nat)) :
    ∀ (st : ServerState) (sid : String) (s : SharedSession) (vid : Nat),
      lookupSession st.sessions sid = some s →
      s.viewers.count vid = 1 →
      (∀ c ∈ calls, vid ∉ c.2) →
      deliveredTo (runBroadcasts st sid calls).2 vid = calls.map Prod.fst := by
  induction calls with
  | nil => intro st sid s vid _ _ _; rfl
  | cons c rest ih =>
    intro st sid s vid hl hc hf
    have hvf : vid ∉ c.2 := hf c (List.mem_cons_self c rest)
    have hstep := broadcastOutput_eq_some st sid c.1 c.2 s hl
    have hl' : lookupSession ((broadcastOutput st sid c.1 c.2).1).sessions sid =
        some { s with viewers := s.viewers.filter (fun v => v ∉ c.2) } := by
      simp only [hstep]
      rw [lookupSession_updateSession st.sessions sid
        (fun t => { t with viewers := t.viewers.filter (fun v => v ∉ c.2) })
        (fun t => rfl), hl]
      rfl
    have hc' : ({ s with viewers := s.viewers.filter (fun v => v ∉ c.2) } :
        SharedSession).viewers.count vid = 1 := by
      show (s.viewers.filter (fun v => v ∉ c.2)).count vid = 1
      rw [count_filter_not_failed s.viewers c.2 vid hvf]
      exact hc
    have hrest := ih (broadcastOutput st sid c.1 c.2).1 sid _ vid hl' hc'
      (fun d hd => hf d (List.mem_cons_of_mem c hd))
    have hhead : deliveredTo (broadcastOutput st sid c.1 c.2).2 vid = [c.1] := by
      simp only [hstep]
      rw [deliveredTo_append, deliveredTo_broadcast_events _ _ _ _ hvf, hc,
        deliveredTo_notif]
      rfl
    simp only [runBroadcasts]
    rw [deliveredTo_append, hhead, hrest]
    rfl

/-! Lemmas about the decorator's event processing. -/

theorem decoratorRun_no_session : ∀ (st : ServerState) (sid : String)
    (evs : List TermEvent), lookupSession st.sessions sid = none →
    decoratorRun st sid evs = (st, []) := by
  intro st sid evs
  induction evs generalizing st with
  | nil => intro _; rfl
  | cons e t ih =>
    intro h
    cases e with
    | output b =>
      simp [decoratorRun, decoratorHandle, applySvcCalls, applySvcCall,
        broadcastOutput_eq_none st sid b [] h, ih st h]
    | closed =>
      simp [decoratorRun, decoratorHandle, applySvcCalls, applySvcCall,
        unregisterSession_eq_none st sid h, ih st h]
    | destroyed =>
      simp [decoratorRun, decoratorHandle, applySvcCalls, applySvcCall,
        unregisterSession_eq_none st sid h, ih st h]

theorem decoratorRun_append (sid : String) (l₁ l₂ : List TermEvent) :
    ∀ st : ServerState, decoratorRun st sid (l₁ ++ l₂) =
      ((decoratorRun (decoratorRun st sid l₁).1 sid l₂).1,
       (decoratorRun st sid l₁).2 ++ (decoratorRun (decoratorRun st sid l₁).1 sid l₂).2) := by
  induction l₁ with
  | nil => intro st; simp [decoratorRun]
  | cons e t ih => intro st; simp [decoratorRun, ih, List.append_assoc]

/-! The claims. -/

/-- C1: Viewer attach handshake: an inbound viewer connection is accepted
if and only if the session exists, the supplied token equals the session's
token, any required password is supplied and correct, and the session's
expiresAt is not in the past; a connection failing any check is rejected
with no side effects on the server state and is never added to the
session's viewers set, while a successful handshake appends the viewer to
the viewers set and emits a viewer-joined notification with the new
count. -/
theorem viewer_attach_handshake (st : ServerState) (sid tok : String)
    (pw : Option String) (now vid : Nat) :
    ((attachViewer st sid tok pw now vid).2.2 = true ↔
       ∃ s, lookupSession st.sessions sid = some s ∧ tok = s.token ∧
         (∀ p, s.password = some p → pw = some p) ∧
         (∀ t, s.expiresAt = some t → now ≤ t)) ∧
    ((attachViewer st sid tok pw now vid).2.2 = false →
       (attachViewer st sid tok pw now vid).1 = st) ∧
    (∀ s, lookupSession st.sessions sid = some s →
       (attachViewer st sid tok pw now vid).2.2 = true →
       lookupSession ((attachViewer st sid tok pw now vid).1).sessions sid =
           some { s with viewers := s.viewers ++ [vid] } ∧
         vid ∈ ({ s with viewers := s.viewers ++ [vid] } : SharedSession).viewers ∧
         (attachViewer st sid tok pw now vid).2.1 =
           [Event.viewerJoined sid (s.viewers.length + 1)]) := by
  refine ⟨⟨?_, ?_⟩, ?_, ?_⟩
  · intro hacc
    cases hl : lookupSession st.sessions sid with
    | none =>
      rw [attachViewer_eq_notfound st sid tok pw now vid hl] at hacc
      simp at hacc
    | some s0 =>
      by_cases hok : handshakeOk s0 tok pw now = true
      · exact ⟨s0, rfl, (handshakeOk_iff s0 tok pw now).mp hok⟩
      · rw [attachViewer_eq_reject st sid tok pw now vid s0 hl (by simpa using hok)] at hacc
        simp at hacc
  · rintro ⟨s, hs, h1, h2, h3⟩
    have hok : handshakeOk s tok pw now = true :=
      (handshakeOk_iff s tok pw now).mpr ⟨h1, h2, h3⟩
    rw [attachViewer_eq_accept st sid tok pw now vid s hs hok]
  · intro hrej
    cases hl : lookupSession st.sessions sid with
    | none => rw [attachViewer_eq_notfound st sid tok pw now vid hl]
    | some s0 =>
      by_cases hok : handshakeOk s0 tok pw now = true
      · rw [attachViewer_eq_accept st sid tok pw now vid s0 hl hok] at hrej
        simp at hrej
      · rw [attachViewer_eq_reject st sid tok pw now vid s0 hl (by simpa using hok)]
  · intro s hs hacc
    by_cases hok : handshakeOk s tok pw now = true
    · rw [attachViewer_eq_accept st sid tok pw now vid s hs hok]
      refine ⟨?_, List.mem_append_right _ (List.mem_singleton.mpr rfl), rfl⟩
      show lookupSession (updateSession st.sessions sid
        (fun t => { t with viewers := t.viewers ++ [vid] })) sid = _
      rw [lookupSession_updateSession st.sessions sid
        (fun t => { t with viewers := t.viewers ++ [vid] }) (fun t => rfl), hs]
      rfl
    · rw [attachViewer_eq_reject st sid tok pw now vid s hs (by simpa using hok)] at hacc
      simp at hacc

/-- C2: Read-only mode isolation: bytes received from an attached viewer
of a read-only session are discarded with no side effect and never reach
the host's terminal-input sink. -/
theorem read_only_mode_isolation (st : ServerState) (conn : ViewerConnection)
    (bytes : List Nat) (s : SharedSession)
    (hs : lookupSession st.sessions conn.sessionId = some s)
    (hm : s.mode = Mode.readOnly)
    (hv : conn.viewerId ∈ s.viewers) :
    routeViewerInput st conn bytes = [] ∧
    terminalInputSink (routeViewerInput st conn bytes) = [] := by
  have h1 : routeViewerInput st conn bytes = [] := by
    simp only [routeViewerInput, hs, hm]
  exact ⟨h1, by rw [h1]; rfl⟩

/-- Witness for C2: a registered read-only session "abc" with viewer 7
attached; bytes sent by the viewer are discarded and the host sink gets
nothing. -/
theorem read_only_mode_isolation_witness :
    routeViewerInput
        (⟨true, 1, "h", [⟨"abc", "tok1", none, Mode.readOnly, none, [7]⟩]⟩ : ServerState)
        (⟨"abc", 7⟩ : ViewerConnection) [120] = [] ∧
    terminalInputSink (routeViewerInput
        (⟨true, 1, "h", [⟨"abc", "tok1", none, Mode.readOnly, none, [7]⟩]⟩ : ServerState)
        (⟨"abc", 7⟩ : ViewerConnection) [120]) = [] :=
  read_only_mode_isolation _ _ _
    (⟨"abc", "tok1", none, Mode.readOnly, none, [7]⟩ : SharedSession)
    (by decide) (by decide) (by decide)

/-- C3: Interactive input forwarding: bytes received from an attached
viewer of an interactive session are forwarded to the host's
terminal-input sink tagged with the session's id. -/
theorem interactive_input_forwarding (st : ServerState) (conn : ViewerConnection)
    (bytes : List Nat) (s : SharedSession)
    (hs : lookupSession st.sessions conn.sessionId = some s)
    (hm : s.mode = Mode.interactive)
    (hv : conn.viewerId ∈ s.viewers) :
    terminalInputSink (routeViewerInput st conn bytes) = [(conn.sessionId, bytes)] := by
  have hid : s.id = conn.sessionId := lookupSession_eq_id st.sessions conn.sessionId s hs
  simp only [routeViewerInput, hs, hm, terminalInputSink, List.filterMap_cons]
  simp [hid]

/-- Witness for C3: session "int1", mode interactive, token "t", with
viewer 1 attached; the viewer sends the three bytes of an ls command plus
newline, and the host sink receives them tagged with "int1". -/
theorem interactive_input_forwarding_witness :
    terminalInputSink (routeViewerInput
        (⟨true, 1, "h", [⟨"int1", "t", none, Mode.interactive, none, [1]⟩]⟩ : ServerState)
        (⟨"int1", 1⟩ : ViewerConnection) [108, 115, 10]) =
      [("int1", [108, 115, 10])] :=
  interactive_input_forwarding _ _ _
    (⟨"int1", "t", none, Mode.interactive, none, [1]⟩ : SharedSession)
    (by decide) (by decide) (by decide)

/-- C4: Fan-out delivery with per-viewer ordering: a broadcast delivers
the bytes to every viewer still connected at call time, and for a single
viewer that stays healthy across a sequence of broadcast calls the
delivered chunks are exactly the broadcast chunks in call order. -/
theorem fanout_per_viewer_ordering (st : ServerState) (sid : String) (s : SharedSession)
    (calls : List (List Nat × List Nat)) (vid : Nat)
    (hs : lookupSession st.sessions sid = some s)
    (hc : s.viewers.count vid = 1)
    (hf : ∀ c ∈ calls, vid ∉ c.2) :
    (∀ bytes failed : List Nat, ∀ v ∈ s.viewers, v ∉ failed →
        Event.deliver v bytes ∈ (broadcastOutput st sid bytes failed).2) ∧
    deliveredTo (runBroadcasts st sid calls).2 vid = calls.map Prod.fst := by
  constructor
  · intro bytes failed v hv hnf
    exact mem_deliver_broadcast st sid bytes failed s v hs hv hnf
  · exact deliveredTo_runBroadcasts calls st sid s vid hs hc hf

/-- Witness for C4: session "multi" with viewers 1, 2, 3; two successive
broadcasts with no failures deliver both chunks to viewer 2 in order. -/
theorem fanout_per_viewer_ordering_witness :
    (∀ bytes failed : List Nat, ∀ v ∈ [1, 2, 3], v ∉ failed →
        Event.deliver v bytes ∈ (broadcastOutput
          (⟨true, 1, "h", [⟨"multi", "t", none, Mode.readOnly, none, [1, 2, 3]⟩]⟩ :
            ServerState) "multi" bytes failed).2) ∧
    deliveredTo (runBroadcasts
        (⟨true, 1, "h", [⟨"multi", "t", none, Mode.readOnly, none, [1, 2, 3]⟩]⟩ :
          ServerState) "multi" [([104, 105], []), ([33], [])]).2 2 =
      [[104, 105], [33]] :=
  fanout_per_viewer_ordering _ _
    (⟨"multi", "t", none, Mode.readOnly, none, [1, 2, 3]⟩ : SharedSession)
    [([104, 105], []), ([33], [])] 2
    (by decide) (by decide) (by decide)

/-- C5: Dead-viewer isolation: when a write to one viewer fails during a
broadcast, that viewer's transport is closed and it is removed from the
session's viewers set, every other healthy viewer still receives the
bytes, and the dropped viewer no longer counts towards the session's
viewer count; the operation is total, never escalating the failure. -/
theorem dead_viewer_isolation (st : ServerState) (sid : String) (s : SharedSession)
    (bytes failed : List Nat) (vd : Nat)
    (hs : lookupSession st.sessions sid = some s)
    (hv : vd ∈ s.viewers) (hd : vd ∈ failed) :
    Event.closeTransport vd ∈ (broadcastOutput st sid bytes failed).2 ∧
    (∀ v ∈ s.viewers, v ∉ failed →
        Event.deliver v bytes ∈ (broadcastOutput st sid bytes failed).2) ∧
    lookupSession ((broadcastOutput st sid bytes failed).1).sessions sid =
      some { s with viewers := s.viewers.filter (fun v => v ∉ failed) } ∧
    vd ∉ s.viewers.filter (fun v => v ∉ failed) ∧
    getViewerCount (broadcastOutput st sid bytes failed).1 sid =
      (s.viewers.filter (fun v => v ∉ failed)).length := by
  have hl' : lookupSession ((broadcastOutput st sid bytes failed).1).sessions sid =
      some { s with viewers := s.viewers.filter (fun v => v ∉ failed) } := by
    simp only [broadcastOutput_eq_some st sid bytes failed s hs]
    rw [lookupSession_updateSession st.sessions sid
      (fun t => { t with viewers := t.viewers.filter (fun v => v ∉ failed) })
      (fun t => rfl), hs]
    rfl
  refine ⟨?_, ?_, hl', ?_, ?_⟩
  · simp only [broadcastOutput_eq_some st sid bytes failed s hs]
    refine List.mem_append_left _ ?_
    have : Event.closeTransport vd =
        (fun v => if v ∈ failed then Event.closeTransport v else Event.deliver v bytes) vd := by
      simp [hd]
    rw [this]
    exact List.mem_map_of_mem _ hv
  · intro v hmem hnf
    exact mem_deliver_broadcast st sid bytes failed s v hs hmem hnf
  · intro hmem
    have := (List.mem_filter.mp hmem).2
    simp [hd] at this
  · rw [getViewerCount_eq_some _ _ _ hl']

/-- Witness for C5: session "multi" with viewers 1, 2, 3 where viewer 2's
transport is broken; the broadcast closes viewer 2, delivers to 1 and 3,
and the viewer count drops to 2. -/
theorem dead_viewer_isolation_witness :
    Event.closeTransport 2 ∈ (broadcastOutput
      (⟨true, 1, "h", [⟨"multi", "t", none, Mode.readOnly, none, [1, 2, 3]⟩]⟩ :
        ServerState) "multi" [104] [2]).2 ∧
    (∀ v ∈ [1, 2, 3], v ∉ [2] →
        Event.deliver v [104] ∈ (broadcastOutput
          (⟨true, 1, "h", [⟨"multi", "t", none, Mode.readOnly, none, [1, 2, 3]⟩]⟩ :
            ServerState) "multi" [104] [2]).2) ∧
    lookupSession ((broadcastOutput
        (⟨true, 1, "h", [⟨"multi", "t", none, Mode.readOnly, none, [1, 2, 3]⟩]⟩ :
          ServerState) "multi" [104] [2]).1).sessions "multi" =
      some ⟨"multi", "t", none, Mode.readOnly, none, [1, 3]⟩ ∧
    (2 : Nat) ∉ [1, 3] ∧
    getViewerCount (broadcastOutput
        (⟨true, 1, "h", [⟨"multi", "t", none, Mode.readOnly, none, [1, 2, 3]⟩]⟩ :
          ServerState) "multi" [104] [2]).1 "multi" = 2 := by
  have h := dead_viewer_isolation
    (⟨true, 1, "h", [⟨"multi", "t", none, Mode.readOnly, none, [1, 2, 3]⟩]⟩ : ServerState)
    "multi" (⟨"multi", "t", none, Mode.readOnly, none, [1, 2, 3]⟩ : SharedSession)
    [104] [2] 2 (by decide) (by decide) (by decide)
  refine ⟨h.1, h.2.1, ?_, by decide, ?_⟩
  · have := h.2.2.1
    simpa using this
  · have := h.2.2.2.2
    simpa using this

/-- C6: Expiration: a session whose expiry (computed as registration time
plus expiresInSeconds) lies before the current time is absent from the
Registry at any check after the sweep, an attach with the same credentials
is rejected, its viewers are forcibly disconnected, and the sweep acts on
it exactly as an explicit unregister. -/
theorem session_expiration (st : ServerState) (sid tok : String) (pw : Option String)
    (s : SharedSession) (t0 n now vid : Nat)
    (hexp : s.expiresAt = some (t0 + n))
    (hnow : t0 + n < now)
    (huniq : st.sessions.filter (fun u => u.id == sid) = [s])
    (hrest : ∀ u ∈ st.sessions, u.id ≠ sid → isExpired u now = false) :
    lookupSession ((sweepExpired st now).1).sessions sid = none ∧
    (attachViewer st sid tok pw now vid).2.2 = false ∧
    (∀ v ∈ s.viewers, Event.closeTransport v ∈ (sweepExpired st now).2) ∧
    sweepExpired st now = unregisterSession st sid := by
  have hs : lookupSession st.sessions sid = some s :=
    lookupSession_of_filter_singleton st.sessions sid s huniq
  have hid : s.id = sid := lookupSession_eq_id st.sessions sid s hs
  have smem : s ∈ st.sessions := lookupSession_mem st.sessions sid s hs
  have hexpS : isExpired s now = true := by
    simp only [isExpired, hexp, decide_eq_true_iff]
    omega
  have hall : ∀ u ∈ st.sessions, isExpired u now = (u.id == sid) := by
    intro u hu
    by_cases h : u.id = sid
    · have humem : u ∈ st.sessions.filter (fun u => u.id == sid) :=
        List.mem_filter.mpr ⟨hu, by simpa using h⟩
      rw [huniq] at humem
      have : u = s := by simpa using humem
      subst this
      rw [hexpS, beq_iff_eq.mpr h]
    · rw [hrest u hu h, Eq.comm]
      simpa using h
  have hfiltexp : st.sessions.filter (fun u => isExpired u now) = [s] := by
    rw [List.filter_congr hall]
    exact huniq
  refine ⟨?_, ?_, ?_, ?_⟩
  · show lookupSession (st.sessions.filter (fun u => !(isExpired u now))) sid = none
    rw [lookupSession_eq_none_iff]
    intro u hu
    have hm := List.mem_filter.mp hu
    intro h
    have := hall u hm.1
    rw [beq_iff_eq.mpr h] at this
    rw [this] at hm
    simpa using hm.2
  · have hne : notExpired s now = false := by
      simp only [notExpired, hexp, decide_eq_false_iff_not]
      omega
    have hok : handshakeOk s tok pw now = false := by
      simp [handshakeOk, hne]
    rw [attachViewer_eq_reject st sid tok pw now vid s hs hok]
  · intro v hv
    show Event.closeTransport v ∈ (st.sessions.filter (fun u => isExpired u now)).flatMap
      (fun u => u.viewers.map Event.closeTransport ++ [Event.viewerLeft u.id 0])
    rw [hfiltexp]
    refine List.mem_flatMap.mpr ⟨s, by simp, ?_⟩
    exact List.mem_append_left _ (List.mem_map_of_mem _ hv)
  · rw [unregisterSession_eq_some st sid s hs]
    have hstate : st.sessions.filter (fun u => !(isExpired u now)) =
        st.sessions.filter (fun t => t.id != sid) := by
      refine List.filter_congr ?_
      intro u hu
      rw [hall u hu]
      rfl
    show ({ st with sessions := st.sessions.filter (fun u => !(isExpired u now)) },
        (st.sessions.filter (fun u => isExpired u now)).flatMap
          (fun u => u.viewers.map Event.closeTransport ++ [Event.viewerLeft u.id 0])) = _
    rw [hstate, hfiltexp]
    simp [List.flatMap, hid]

/-- Witness for C6: session "exp1" registered with one second to live at
time 0 and viewer 5 attached; at time 2 the sweep removes it, a re-attach
with the same credentials is rejected, viewer 5's transport is closed, and
the sweep equals an explicit unregister. -/
theorem session_expiration_witness :
    lookupSession ((sweepExpired
        (⟨true, 1, "h", [⟨"exp1", "t", none, Mode.interactive, some 1, [5]⟩]⟩ :
          ServerState) 2).1).sessions "exp1" = none ∧
    (attachViewer
        (⟨true, 1, "h", [⟨"exp1", "t", none, Mode.interactive, some 1, [5]⟩]⟩ :
          ServerState) "exp1" "t" none 2 9).2.2 = false ∧
    (∀ v ∈ [5], Event.closeTransport v ∈ (sweepExpired
        (⟨true, 1, "h", [⟨"exp1", "t", none, Mode.interactive, some 1, [5]⟩]⟩ :
          ServerState) 2).2) ∧
    sweepExpired
        (⟨true, 1, "h", [⟨"exp1", "t", none, Mode.interactive, some 1, [5]⟩]⟩ :
          ServerState) 2 =
      unregisterSession
        (⟨true, 1, "h", [⟨"exp1", "t", none, Mode.interactive, some 1, [5]⟩]⟩ :
          ServerState) "exp1" := by
  have h := session_expiration
    (⟨true, 1, "h", [⟨"exp1", "t", none, Mode.interactive, some 1, [5]⟩]⟩ : ServerState)
    "exp1" "t" none
    (⟨"exp1", "t", none, Mode.interactive, some 1, [5]⟩ : SharedSession)
    0 1 2 9 (by decide) (by decide) (by decide) (by decide)
  exact ⟨h.1, h.2.1, fun v hv => h.2.2.1 v (by simpa using hv), h.2.2.2⟩

/-- C7: start() contract: starting a stopped server with port 0 binds the
OS-picked ephemeral port and reports success with that concrete positive
port and the requested host; a bind failure is reported as a structured
failure and the server remains stopped. -/
theorem start_contract (st : ServerState) (h : String) (env : BindEnv)
    (hstopped : st.running = false) (hpick : 0 < env.osPick) (hh : h ≠ "") :
    (env.bindFails = false →
       startServerHandler st (some 0) (some h) none none env =
         ({ st with running := true, port := env.osPick, host := h },
          { success := true, port := some env.osPick, host := some h, error := none }) ∧
       0 < env.osPick) ∧
    (env.bindFails = true →
       startServerHandler st (some 0) (some h) none none env =
         (st, { success := false, port := none, host := none,
                error := some "bind failed" }) ∧
       (startServerHandler st (some 0) (some h) none none env).1.running = false) := by
  have hb : (h == "") = false := beq_eq_false_iff_ne.mpr hh
  constructor
  · intro hbf
    refine ⟨?_, hpick⟩
    simp [startServerHandler, jsOrStr, jsOrNat, listenerStart, hstopped, hbf, hb]
  · intro hbf
    have heq : startServerHandler st (some 0) (some h) none none env =
        (st, { success := false, port := none, host := none,
               error := some "bind failed" }) := by
      simp [startServerHandler, jsOrStr, jsOrNat, listenerStart, hstopped, hbf, hb]
    exact ⟨heq, by rw [heq]; exact hstopped⟩

/-- Witness for C7: starting a stopped server on host 127.0.0.1 with port
0: a successful bind returns the ephemeral port 49200; a failed bind
returns a structured failure and leaves the server stopped. -/
theorem start_contract_witness :
    (startServerHandler (⟨false, 0, "h0", []⟩ : ServerState) (some 0)
        (some "127.0.0.1") none none (⟨49200, false⟩ : BindEnv) =
      ((⟨true, 49200, "127.0.0.1", []⟩ : ServerState),
       (⟨true, some 49200, some "127.0.0.1", none⟩ : StartReply)) ∧
     0 < 49200) ∧
    (startServerHandler (⟨false, 0, "h0", []⟩ : ServerState) (some 0)
        (some "127.0.0.1") none none (⟨49200, true⟩ : BindEnv) =
      ((⟨false, 0, "h0", []⟩ : ServerState),
       (⟨false, none, none, some "bind failed"⟩ : StartReply)) ∧
     (startServerHandler (⟨false, 0, "h0", []⟩ : ServerState) (some 0)
        (some "127.0.0.1") none none (⟨49200, true⟩ : BindEnv)).1.running = false) :=
  ⟨(start_contract (⟨false, 0, "h0", []⟩ : ServerState) "127.0.0.1"
      (⟨49200, false⟩ : BindEnv) rfl (by decide) (by decide)).1 rfl,
   (start_contract (⟨false, 0, "h0", []⟩ : ServerState) "127.0.0.1"
      (⟨49200, true⟩ : BindEnv) rfl (by decide) (by decide)).2 rfl⟩

/-- C8: Start/stop idempotence: starting a running server is a no-op that
returns the existing port, a second start after a successful start returns
the same state and port whatever the new bind environment (so no second
bind is attempted), and stopping a stopped server is a no-op. -/
theorem start_stop_idempotent (st : ServerState) (p : Nat) (h : String)
    (env env' : BindEnv) :
    (st.running = true → listenerStart st p h env = (st, Except.ok st.port)) ∧
    (st.running = false → listenerStop st = (st, [])) ∧
    (∀ st1 q, listenerStart st p h env = (st1, Except.ok q) →
       listenerStart st1 p h env' = (st1, Except.ok q)) := by
  refine ⟨?_, ?_, ?_⟩
  · intro hr
    simp [listenerStart, hr]
  · intro hr
    simp [listenerStop, hr]
  · intro st1 q heq
    by_cases hr : st.running
    · simp only [listenerStart, if_pos hr, Prod.mk.injEq, Except.ok.injEq] at heq
      obtain ⟨h1, h2⟩ := heq
      subst h1
      subst h2
      simp [listenerStart, hr]
    · by_cases hbf : env.bindFails
      · simp [listenerStart, hr, hbf] at heq
      · simp only [listenerStart, if_neg hr, if_neg hbf, Prod.mk.injEq,
          Except.ok.injEq] at heq
        obtain ⟨h1, h2⟩ := heq
        subst h1
        subst h2
        simp [listenerStart]

/-- Witness for C8: a running server at port 42 where start is a no-op
returning 42, a stopped server where stop is a no-op, and a concrete
double start from a stopped server where the second start under a
different bind environment returns the same state and port. -/
theorem start_stop_idempotent_witness :
    listenerStart (⟨true, 42, "h", []⟩ : ServerState) 0 "h" (⟨50, false⟩ : BindEnv) =
      ((⟨true, 42, "h", []⟩ : ServerState), Except.ok 42) ∧
    listenerStop (⟨false, 0, "h", []⟩ : ServerState) =
      ((⟨false, 0, "h", []⟩ : ServerState), []) ∧
    listenerStart (⟨true, 50, "h", []⟩ : ServerState) 0 "h" (⟨60, true⟩ : BindEnv) =
      ((⟨true, 50, "h", []⟩ : ServerState), Except.ok 50) :=
  ⟨(start_stop_idempotent (⟨true, 42, "h", []⟩ : ServerState) 0 "h"
      (⟨50, false⟩ : BindEnv) (⟨50, false⟩ : BindEnv)).1 rfl,
   (start_stop_idempotent (⟨false, 0, "h", []⟩ : ServerState) 0 "h"
      (⟨50, false⟩ : BindEnv) (⟨50, false⟩ : BindEnv)).2.1 rfl,
   (start_stop_idempotent (⟨false, 0, "h", []⟩ : ServerState) 0 "h"
      (⟨50, false⟩ : BindEnv) (⟨60, true⟩ : BindEnv)).2.2
     (⟨true, 50, "h", []⟩ : ServerState) 50 rfl⟩

/-- C9: Unknown-session operations are benign: for a session id absent
from the Registry, unregister is a no-op, broadcast is a silent no-op, the
viewer count is 0, and unregister applied after any unregister of the same
id (in particular a second unregister) is again a no-op; all are total
functions, never raising. -/
theorem unknown_session_ops_benign (st : ServerState) (sid : String)
    (bytes failed : List Nat)
    (habs : lookupSession st.sessions sid = none) :
    unregisterSession st sid = (st, []) ∧
    broadcastOutput st sid bytes failed = (st, []) ∧
    getViewerCount st sid = 0 ∧
    (∀ st' : ServerState,
       lookupSession ((unregisterSession st' sid).1).sessions sid = none ∧
       unregisterSession ((unregisterSession st' sid).1) sid =
         ((unregisterSession st' sid).1, [])) := by
  refine ⟨unregisterSession_eq_none st sid habs,
    broadcastOutput_eq_none st sid bytes failed habs,
    getViewerCount_eq_none st sid habs, ?_⟩
  intro st'
  have hn := lookupSession_after_unregister st' sid
  exact ⟨hn, unregisterSession_eq_none _ sid hn⟩

/-- Witness for C9: a registry holding only session "other"; operations on
the unknown id "nope" are all no-ops and a double unregister of "nope" is
a no-op as well. -/
theorem unknown_session_ops_benign_witness :
    unregisterSession
        (⟨true, 1, "h", [⟨"other", "t", none, Mode.readOnly, none, [3]⟩]⟩ : ServerState)
        "nope" =
      ((⟨true, 1, "h", [⟨"other", "t", none, Mode.readOnly, none, [3]⟩]⟩ : ServerState),
       []) ∧
    broadcastOutput
        (⟨true, 1, "h", [⟨"other", "t", none, Mode.readOnly, none, [3]⟩]⟩ : ServerState)
        "nope" [104] [] =
      ((⟨true, 1, "h", [⟨"other", "t", none, Mode.readOnly, none, [3]⟩]⟩ : ServerState),
       []) ∧
    getViewerCount
        (⟨true, 1, "h", [⟨"other", "t", none, Mode.readOnly, none, [3]⟩]⟩ : ServerState)
        "nope" = 0 ∧
    (∀ st' : ServerState,
       lookupSession ((unregisterSession st' "nope").1).sessions "nope" = none ∧
       unregisterSession ((unregisterSession st' "nope").1) "nope" =
         ((unregisterSession st' "nope").1, [])) :=
  unknown_session_ops_benign
    (⟨true, 1, "h", [⟨"other", "t", none, Mode.readOnly, none, [3]⟩]⟩ : ServerState)
    "nope" [104] [] (by decide)

/-- C10: For a terminal attached as a shared session, the decorator maps
the underlying session's closed or destroyed event to a stopSharing call,
after which the session is gone from the Registry and no later terminal
event causes any bytes to be broadcast to viewers. -/
theorem stop_sharing_on_session_end (st : ServerState) (sid : String)
    (evs₁ evs₂ : List TermEvent) (e : TermEvent)
    (he : e = TermEvent.closed ∨ e = TermEvent.destroyed) :
    SvcCall.stopSharingCall sid ∈ decoratorHandle sid e ∧
    lookupSession ((decoratorRun st sid (evs₁ ++ [e])).1).sessions sid = none ∧
    (decoratorRun (decoratorRun st sid (evs₁ ++ [e])).1 sid evs₂).2 = [] := by
  have hmem : SvcCall.stopSharingCall sid ∈ decoratorHandle sid e := by
    rcases he with h | h <;> subst h <;> simp [decoratorHandle]
  have hstep : ∀ stX : ServerState,
      (decoratorRun stX sid [e]).1 = (unregisterSession stX sid).1 := by
    intro stX
    rcases he with h | h <;> subst h <;>
      simp [decoratorRun, decoratorHandle, applySvcCalls, applySvcCall]
  have hend : lookupSession ((decoratorRun st sid (evs₁ ++ [e])).1).sessions sid = none := by
    rw [decoratorRun_append]
    show lookupSession ((decoratorRun (decoratorRun st sid evs₁).1 sid [e]).1).sessions
      sid = none
    rw [hstep]
    exact lookupSession_after_unregister _ _
  refine ⟨hmem, hend, ?_⟩
  rw [decoratorRun_no_session _ _ _ hend]

/-- Witness for C10: session "abc" with viewer 7; after an output event
followed by the closed event, the session is unregistered and a further
output event broadcasts nothing. -/
theorem stop_sharing_on_session_end_witness :
    SvcCall.stopSharingCall "abc" ∈ decoratorHandle "abc" TermEvent.closed ∧
    lookupSession ((decoratorRun
        (⟨true, 1, "h", [⟨"abc", "t", none, Mode.readOnly, none, [7]⟩]⟩ : ServerState)
        "abc" ([TermEvent.output [1]] ++ [TermEvent.closed])).1).sessions "abc" = none ∧
    (decoratorRun (decoratorRun
        (⟨true, 1, "h", [⟨"abc", "t", none, Mode.readOnly, none, [7]⟩]⟩ : ServerState)
        "abc" ([TermEvent.output [1]] ++ [TermEvent.closed])).1
      "abc" [TermEvent.output [2]]).2 = [] :=
  stop_sharing_on_session_end
    (⟨true, 1, "h", [⟨"abc", "t", none, Mode.readOnly, none, [7]⟩]⟩ : ServerState)
    "abc" [TermEvent.output [1]] [TermEvent.output [2]] TermEvent.closed (Or.inl rfl)
